import Mathlib

/-!
A shallow embedding of the Fibonacci Lambda service in
src/lambda_function.py: input validation, sequence generation, event
parsing and the handler, together with theorems checking the
specification against it.
-/

/-- Runtime values that can appear as the extracted input value.  The
boolean case is kept distinct from the integer case because in Python
the bool type subclasses int: isinstance of a boolean against int
holds, yet JSON serialization renders booleans as true and false.  The
float case carries no payload because the program only ever inspects
the type tag of a float, never its value. -/
inductive PyVal where
  | none
  | bool (b : Bool)
  | int (n : Int)
  | float
  | str (s : String)
  | other
deriving DecidableEq

/-- Python isinstance against int.  Booleans pass, since bool
subclasses int. -/
def isinstance_int : PyVal → Bool
  | .int _ => true
  | .bool _ => true
  | _ => false

/-- Python isinstance against float. -/
def isinstance_float : PyVal → Bool
  | .float => true
  | _ => false

/-- Python isinstance against the string type. -/
def isinstance_str : PyVal → Bool
  | .str _ => true
  | _ => false

/-- The integer value of a value of integral runtime type: a boolean
counts as 1 or 0, exactly as Python arithmetic treats it.  Other cases
never reach arithmetic in the program and are given 0. -/
def pyIntVal : PyVal → Int
  | .int n => n
  | .bool b => if b then 1 else 0
  | _ => 0

/-- Translation of validate_input from src/lambda_function.py. -/
def validate_input (n : PyVal) : Bool × String :=
  if n = PyVal.none then (false, "Input parameter 'n' is required")
  else if isinstance_int n = false then
    if isinstance_float n = true then (false, "Input must be an integer")
    else if isinstance_str n = true then (false, "Input must be an integer")
    else (false, "Input must be an integer")
  else if pyIntVal n < 0 then (false, "Input must be a non-negative integer")
  else if pyIntVal n > 1000 then (false, "Input must not exceed 1000")
  else (true, "")

/-- The body of validate_input with every step in an error monad.  None
of its operations (the identity test against None, the isinstance
checks, the integer comparisons) can raise in Python, so every branch
is an ok. -/
def validate_input_exc (n : PyVal) : Except String (Bool × String) :=
  if n = PyVal.none then Except.ok (false, "Input parameter 'n' is required")
  else if isinstance_int n = false then
    if isinstance_float n = true then Except.ok (false, "Input must be an integer")
    else if isinstance_str n = true then Except.ok (false, "Input must be an integer")
    else Except.ok (false, "Input must be an integer")
  else if pyIntVal n < 0 then Except.ok (false, "Input must be a non-negative integer")
  else if pyIntVal n > 1000 then Except.ok (false, "Input must not exceed 1000")
  else Except.ok (true, "")

/-- Python range over integers, as a list. -/
def pyRange (a b : Int) : List Int :=
  (List.range (b - a).toNat).map (fun (k : Nat) => a + (k : Int))

/-- One iteration of the generation loop: append the sum of the two
elements preceding index i.  List indexing is rendered with getD; at
every reachable iteration the two indices are in bounds, so the default
is never taken. -/
def fibStep (sequence : List Int) (i : Int) : List Int :=
  sequence ++ [sequence.getD (i - 1).toNat 0 + sequence.getD (i - 2).toNat 0]

/-- Translation of generate_fibonacci from src/lambda_function.py. -/
def generate_fibonacci (n : Int) : List Int :=
  if n = 0 then [0]
  else if n = 1 then [0, 1]
  else (pyRange 2 (n + 1)).foldl fibStep [0, 1]

/-- An inbound Lambda event: a dict, or some non-dict object, on which
the attribute lookup of get raises AttributeError. -/
inductive PyEvent where
  | dict (entries : List (String × PyVal))
  | nonDict
deriving DecidableEq

/-- Python dict.get: the stored value, or None when the key is absent. -/
def dictGet (entries : List (String × PyVal)) (key : String) : PyVal :=
  match entries.find? (fun p => p.1 == key) with
  | some p => p.2
  | none => PyVal.none

/-- Translation of parse_event from src/lambda_function.py.  On a
non-dict event the attribute access raises, modelled as an error. -/
def parse_event : PyEvent → Except String PyVal
  | .dict entries => Except.ok (dictGet entries "n")
  | .nonDict => Except.error "AttributeError"

/-- Atomic JSON values the handler serializes. -/
inductive JAtom where
  | jint (n : Int)
  | jbool (b : Bool)
  | jstr (s : String)
deriving DecidableEq

/-- JSON values appearing as fields of the response objects: an atom or
an array of atoms. -/
inductive JVal where
  | atom (a : JAtom)
  | arr (elems : List JAtom)
deriving DecidableEq

/-- Serialization of one atom, as json.dumps renders it. -/
def JAtom.dumps : JAtom → String
  | .jint n => toString n
  | .jbool b => if b then "true" else "false"
  | .jstr s => "\"" ++ s ++ "\""

/-- Array elements joined with the default item separator of
json.dumps. -/
def dumpsElems : List JAtom → String
  | [] => ""
  | [a] => a.dumps
  | a :: rest => a.dumps ++ ", " ++ dumpsElems rest

/-- Serialization of a field value. -/
def JVal.dumps : JVal → String
  | .atom a => a.dumps
  | .arr elems => "[" ++ dumpsElems elems ++ "]"

/-- Object entries joined with the default separators of json.dumps. -/
def dumpsEntries : List (String × JVal) → String
  | [] => ""
  | [(k, v)] => "\"" ++ k ++ "\": " ++ v.dumps
  | (k, v) :: rest => "\"" ++ k ++ "\": " ++ v.dumps ++ ", " ++ dumpsEntries rest

/-- json.dumps on a dict, with the default separators. -/
def json_dumps (obj : List (String × JVal)) : String :=
  "\x7b" ++ dumpsEntries obj ++ "\x7d"

/-- How json.dumps renders the echoed input value.  Only values that
passed validation (integers and booleans) ever reach serialization in
the handler; the final case is unreachable there. -/
def pyToJAtom : PyVal → JAtom
  | .int n => .jint n
  | .bool b => .jbool b
  | _ => .jstr ""

/-- The Lambda runtime context object; the handler never reads it. -/
structure LambdaContext where
  aws_request_id : String
deriving DecidableEq

/-- The response dictionary the handler returns. -/
structure Response where
  statusCode : Int
  headers : List (String × String)
  body : String
deriving DecidableEq

/-- Translation of lambda_handler from src/lambda_function.py.  The
try boundary appears as the match on parse_event: extraction is the
only step of the chain that can raise (validation and generation are
total functions of their arguments), and any such error becomes the
fixed 500 response. -/
def lambda_handler (event : PyEvent) (context : LambdaContext) : Response :=
  match parse_event event with
  | Except.error _ =>
      { statusCode := 500
        headers := [("Content-Type", "application/json")]
        body := json_dumps [("error", JVal.atom (JAtom.jstr "Internal server error"))] }
  | Except.ok n =>
      if (validate_input n).1 = false then
        { statusCode := 400
          headers := [("Content-Type", "application/json")]
          body := json_dumps [("error", JVal.atom (JAtom.jstr (validate_input n).2))] }
      else
        { statusCode := 200
          headers := [("Content-Type", "application/json")]
          body := json_dumps
            [("n", JVal.atom (pyToJAtom n)),
             ("sequence", JVal.arr ((generate_fibonacci (pyIntVal n)).map JAtom.jint))] }

/-- The JSON object whose serialization is the body of the response,
kept unserialized so that the shape of the body can be stated
structurally. -/
def handlerBodyJson (event : PyEvent) : List (String × JVal) :=
  match parse_event event with
  | Except.error _ => [("error", JVal.atom (JAtom.jstr "Internal server error"))]
  | Except.ok n =>
      if (validate_input n).1 = false then
        [("error", JVal.atom (JAtom.jstr (validate_input n).2))]
      else
        [("n", JVal.atom (pyToJAtom n)),
         ("sequence", JVal.arr ((generate_fibonacci (pyIntVal n)).map JAtom.jint))]

/-- The error body shape named by the specification: a single field
called error holding a string. -/
def errorShape (o : List (String × JVal)) : Prop :=
  ∃ msg : String, o = [("error", JVal.atom (JAtom.jstr msg))]

/-- The success body shape named by the specification: an integer field
called n and a field called sequence holding a list of integers. -/
def successShape (o : List (String × JVal)) : Prop :=
  ∃ (k : Int) (l : List Int),
    o = [("n", JVal.atom (JAtom.jint k)), ("sequence", JVal.arr (l.map JAtom.jint))]

/-- The success body shape that actually arises when the event supplied
a boolean, which validation accepts: the echoed value serializes as a
JSON boolean. -/
def boolSuccessShape (o : List (String × JVal)) : Prop :=
  ∃ (b : Bool) (l : List Int),
    o = [("n", JVal.atom (JAtom.jbool b)), ("sequence", JVal.arr (l.map JAtom.jint))]

/-- The Fibonacci recurrence, used to characterize the generated list. -/
def fib : Nat → Int
  | 0 => 0
  | 1 => 1
  | k + 2 => fib (k + 1) + fib k

/-- The generation loop after m iterations starting from the seed. -/
def fibAux (m : Nat) : List Int :=
  ((List.range m).map (fun (k : Nat) => (2 : Int) + (k : Int))).foldl fibStep [0, 1]

theorem getD_range_map_fib (k i : Nat) (h : i < k) :
    ((List.range k).map fib).getD i 0 = fib i := by
  rw [List.getD_eq_getElem?_getD, List.getElem?_map, List.getElem?_range h]
  rfl

theorem fibAux_eq (m : Nat) : fibAux m = (List.range (m + 2)).map fib := by
  induction m with
  | zero => decide
  | succ m ih =>
      have hstep : fibAux (m + 1) = fibStep (fibAux m) (2 + (m : Int)) := by
        unfold fibAux
        rw [List.range_succ, List.map_append, List.foldl_append]
        rfl
      rw [hstep, ih]
      unfold fibStep
      have h1 : ((2 + (m : Int)) - 1).toNat = m + 1 := by omega
      have h2 : ((2 + (m : Int)) - 2).toNat = m := by omega
      rw [h1, h2, getD_range_map_fib (m + 2) (m + 1) (by omega),
        getD_range_map_fib (m + 2) m (by omega)]
      have hr3 : List.range (m + 1 + 2) = List.range (m + 2) ++ [m + 2] := by
        rw [show m + 1 + 2 = (m + 2) + 1 from rfl, List.range_succ]
      rw [hr3, List.map_append]
      simp [fib]

theorem generate_fibonacci_natCast (m : Nat) :
    generate_fibonacci (m : Int) = (List.range (m + 1)).map fib := by
  match m with
  | 0 => decide
  | 1 => decide
  | k + 2 =>
      have h0 : ((k + 2 : Nat) : Int) ≠ 0 := by omega
      have h1 : ((k + 2 : Nat) : Int) ≠ 1 := by omega
      have hpr : pyRange 2 (((k + 2 : Nat) : Int) + 1)
          = (List.range (k + 1)).map (fun (j : Nat) => (2 : Int) + (j : Int)) := by
        unfold pyRange
        have ht : ((((k + 2 : Nat) : Int) + 1) - 2).toNat = k + 1 := by omega
        rw [ht]
      unfold generate_fibonacci
      rw [if_neg h0, if_neg h1, hpr]
      have haux : ((List.range (k + 1)).map
            (fun (j : Nat) => (2 : Int) + (j : Int))).foldl
          fibStep [0, 1] = fibAux (k + 1) := rfl
      rw [haux, fibAux_eq]

theorem validate_input_valid_integral (v : PyVal)
    (h : (validate_input v).1 = true) :
    (∃ k, v = PyVal.int k) ∨ (∃ b, v = PyVal.bool b) := by
  cases v with
  | int k => exact Or.inl ⟨k, rfl⟩
  | bool b => exact Or.inr ⟨b, rfl⟩
  | none =>
      simp [validate_input, isinstance_int, isinstance_float, isinstance_str] at h
  | float =>
      simp [validate_input, isinstance_int, isinstance_float, isinstance_str] at h
  | str s =>
      simp [validate_input, isinstance_int, isinstance_float, isinstance_str] at h
  | other =>
      simp [validate_input, isinstance_int, isinstance_float, isinstance_str] at h

/-- C1: for every integer n with 0 ≤ n ≤ 1000, generate_fibonacci n
returns a list of length exactly n + 1 whose element 0 is 0, whose
element 1 (when n ≥ 1) is 1, and in which every element at an index
i ≥ 2 equals the sum of the elements at indices i - 1 and i - 2. -/
theorem C1_generate_fibonacci_recurrence (n : Int) (h0 : 0 ≤ n) (h1 : n ≤ 1000) :
    (generate_fibonacci n).length = n.toNat + 1 ∧
    (generate_fibonacci n).getD 0 0 = 0 ∧
    (1 ≤ n → (generate_fibonacci n).getD 1 0 = 1) ∧
    (∀ i : Nat, 2 ≤ i → i < (generate_fibonacci n).length →
      (generate_fibonacci n).getD i 0 =
        (generate_fibonacci n).getD (i - 1) 0 +
          (generate_fibonacci n).getD (i - 2) 0) := by
  obtain ⟨m, rfl⟩ : ∃ m : Nat, n = (m : Int) := ⟨n.toNat, by omega⟩
  rw [generate_fibonacci_natCast]
  refine ⟨?_, ?_, ?_, ?_⟩
  · rw [List.length_map, List.length_range]
    omega
  · rw [getD_range_map_fib (m + 1) 0 (by omega)]
    rfl
  · intro h
    have hm : 1 ≤ m := by omega
    rw [getD_range_map_fib (m + 1) 1 (by omega)]
    rfl
  · intro i h2 hlen
    rw [List.length_map, List.length_range] at hlen
    obtain ⟨j, rfl⟩ : ∃ j, i = j + 2 := ⟨i - 2, by omega⟩
    rw [getD_range_map_fib (m + 1) (j + 2) hlen,
      getD_range_map_fib (m + 1) (j + 2 - 1) (by omega),
      getD_range_map_fib (m + 1) (j + 2 - 2) (by omega)]
    have hj1 : j + 2 - 1 = j + 1 := by omega
    have hj2 : j + 2 - 2 = j := by omega
    rw [hj1, hj2]
    simp [fib]

/-- Witness for C1, at n = 5. -/
theorem C1_generate_fibonacci_recurrence_witness :
    (generate_fibonacci 5).length = (5 : Int).toNat + 1 :=
  (C1_generate_fibonacci_recurrence 5 (by decide) (by decide)).1

/-- C2: end to end, the event with n mapped to 5 yields status 200 and
the body listing the first six Fibonacci numbers; the event with n
mapped to 0 yields status 200 with the singleton sequence; the empty
event yields status 400 with the required-parameter error body. -/
theorem C2_end_to_end (c : LambdaContext) :
    lambda_handler (PyEvent.dict [("n", PyVal.int 5)]) c =
      { statusCode := 200
        headers := [("Content-Type", "application/json")]
        body := "\x7b\"n\": 5, \"sequence\": [0, 1, 1, 2, 3, 5]\x7d" } ∧
    lambda_handler (PyEvent.dict [("n", PyVal.int 0)]) c =
      { statusCode := 200
        headers := [("Content-Type", "application/json")]
        body := "\x7b\"n\": 0, \"sequence\": [0]\x7d" } ∧
    lambda_handler (PyEvent.dict []) c =
      { statusCode := 400
        headers := [("Content-Type", "application/json")]
        body := "\x7b\"error\": \"Input parameter 'n' is required\"\x7d" } :=
  ⟨rfl, rfl, rfl⟩

/-- C3: validate_input applies its rules in order: a missing input
fails with the required-parameter message; then a non-integral runtime
type fails with the integer message; then a negative value fails with
the non-negative message; then a value over 1000 fails with the bound
message; otherwise the input is valid with an empty message. -/
theorem C3_validate_input_order (v : PyVal) :
    (v = PyVal.none →
      validate_input v = (false, "Input parameter 'n' is required")) ∧
    (v ≠ PyVal.none → isinstance_int v = false →
      validate_input v = (false, "Input must be an integer")) ∧
    (v ≠ PyVal.none → isinstance_int v = true → pyIntVal v < 0 →
      validate_input v = (false, "Input must be a non-negative integer")) ∧
    (v ≠ PyVal.none → isinstance_int v = true → 0 ≤ pyIntVal v →
      pyIntVal v > 1000 →
      validate_input v = (false, "Input must not exceed 1000")) ∧
    (v ≠ PyVal.none → isinstance_int v = true → 0 ≤ pyIntVal v →
      pyIntVal v ≤ 1000 →
      validate_input v = (true, "")) := by
  refine ⟨?_, ?_, ?_, ?_, ?_⟩
  · intro h
    subst h
    rfl
  · intro hne hint
    unfold validate_input
    rw [if_neg hne, if_pos hint]
    split_ifs <;> rfl
  · intro hne hint hneg
    have hfalse : ¬ isinstance_int v = false := by simp [hint]
    unfold validate_input
    rw [if_neg hne, if_neg hfalse, if_pos hneg]
  · intro hne hint hge hbig
    have hfalse : ¬ isinstance_int v = false := by simp [hint]
    unfold validate_input
    rw [if_neg hne, if_neg hfalse, if_neg (show ¬ pyIntVal v < 0 by omega),
      if_pos hbig]
  · intro hne hint hge hle
    have hfalse : ¬ isinstance_int v = false := by simp [hint]
    unfold validate_input
    rw [if_neg hne, if_neg hfalse, if_neg (show ¬ pyIntVal v < 0 by omega),
      if_neg (show ¬ pyIntVal v > 1000 by omega)]

/-- Witness for C3, at the numeric-looking string input. -/
theorem C3_validate_input_order_witness :
    validate_input (PyVal.str "5") = (false, "Input must be an integer") :=
  (C3_validate_input_order (PyVal.str "5")).2.1 (by decide) (by decide)

/-- C4 counterexample: the boolean True passes validation, because the
Python bool type subclasses int, so the isinstance check accepts it and
the range checks see the value 1. -/
theorem C4_counterexample_bool_accepted :
    validate_input (PyVal.bool true) = (true, "") := rfl

/-- C4 as amended: every boolean input is accepted by validate_input as
a valid integer (False as 0 and True as 1), rather than rejected. -/
theorem C4_amended_bool_accepted (b : Bool) :
    validate_input (PyVal.bool b) = (true, "") := by
  cases b <;> rfl

/-- C5: whenever the extraction step raises, which is the only step of
the chain that can, the handler returns the fixed 500 response whose
body exposes no detail of the original exception. -/
theorem C5_fault_boundary (event : PyEvent) (c : LambdaContext)
    (h : ∃ msg, parse_event event = Except.error msg) :
    lambda_handler event c =
      { statusCode := 500
        headers := [("Content-Type", "application/json")]
        body := "\x7b\"error\": \"Internal server error\"\x7d" } := by
  obtain ⟨msg, hmsg⟩ := h
  unfold lambda_handler
  rw [hmsg]
  rfl

/-- Witness for C5, at a non-dict event. -/
theorem C5_fault_boundary_witness :
    lambda_handler PyEvent.nonDict ⟨""⟩ =
      { statusCode := 500
        headers := [("Content-Type", "application/json")]
        body := "\x7b\"error\": \"Internal server error\"\x7d" } :=
  C5_fault_boundary PyEvent.nonDict ⟨""⟩ ⟨"AttributeError", rfl⟩

/-- C6 as amended: every response has status 200, 400 or 500, carries
the JSON content-type header, and its body is the serialization of an
object that is either the error shape, the integer success shape, or
the boolean success shape arising when the event supplied a boolean,
which validation accepts. -/
theorem C6_response_invariants (event : PyEvent) (c : LambdaContext) :
    ((lambda_handler event c).statusCode = 200 ∨
      (lambda_handler event c).statusCode = 400 ∨
      (lambda_handler event c).statusCode = 500) ∧
    (lambda_handler event c).headers = [("Content-Type", "application/json")] ∧
    (lambda_handler event c).body = json_dumps (handlerBodyJson event) ∧
    (errorShape (handlerBodyJson event) ∨ successShape (handlerBodyJson event) ∨
      boolSuccessShape (handlerBodyJson event)) := by
  cases hp : parse_event event with
  | error e =>
      have hl : lambda_handler event c =
          { statusCode := 500
            headers := [("Content-Type", "application/json")]
            body := json_dumps
              [("error", JVal.atom (JAtom.jstr "Internal server error"))] } := by
        unfold lambda_handler
        rw [hp]
      have hbj : handlerBodyJson event
          = [("error", JVal.atom (JAtom.jstr "Internal server error"))] := by
        unfold handlerBodyJson
        rw [hp]
      rw [hl, hbj]
      exact ⟨Or.inr (Or.inr rfl), rfl, rfl, Or.inl ⟨"Internal server error", rfl⟩⟩
  | ok n =>
      by_cases hv : (validate_input n).1 = false
      · have hl : lambda_handler event c =
            { statusCode := 400
              headers := [("Content-Type", "application/json")]
              body := json_dumps
                [("error", JVal.atom (JAtom.jstr (validate_input n).2))] } := by
          unfold lambda_handler
          rw [hp]
          simp only [if_pos hv]
        have hbj : handlerBodyJson event
            = [("error", JVal.atom (JAtom.jstr (validate_input n).2))] := by
          unfold handlerBodyJson
          rw [hp]
          simp only [if_pos hv]
        rw [hl, hbj]
        exact ⟨Or.inr (Or.inl rfl), rfl, rfl, Or.inl ⟨(validate_input n).2, rfl⟩⟩
      · have hl : lambda_handler event c =
            { statusCode := 200
              headers := [("Content-Type", "application/json")]
              body := json_dumps
                [("n", JVal.atom (pyToJAtom n)),
                 ("sequence",
                  JVal.arr ((generate_fibonacci (pyIntVal n)).map JAtom.jint))] } := by
          unfold lambda_handler
          rw [hp]
          simp only [if_neg hv]
        have hbj : handlerBodyJson event
            = [("n", JVal.atom (pyToJAtom n)),
               ("sequence",
                JVal.arr ((generate_fibonacci (pyIntVal n)).map JAtom.jint))] := by
          unfold handlerBodyJson
          rw [hp]
          simp only [if_neg hv]
        rw [hl, hbj]
        have hvt : (validate_input n).1 = true := by
          cases hval : (validate_input n).1
          · exact absurd hval hv
          · rfl
        refine ⟨Or.inl rfl, rfl, rfl, ?_⟩
        rcases validate_input_valid_integral n hvt with ⟨k, hk⟩ | ⟨b, hb⟩
        · subst hk
          exact Or.inr (Or.inl
            ⟨k, generate_fibonacci (pyIntVal (PyVal.int k)), rfl⟩)
        · subst hb
          exact Or.inr (Or.inr
            ⟨b, generate_fibonacci (pyIntVal (PyVal.bool b)), rfl⟩)

/-- C6 counterexample: at the event whose field n holds the boolean
True, validation accepts the value, and the body serializes it as the
JSON boolean true, so the body object is neither of the two shapes the
claim allows. -/
theorem C6_counterexample_boolean_body :
    (lambda_handler (PyEvent.dict [("n", PyVal.bool true)]) ⟨""⟩).body
      = "\x7b\"n\": true, \"sequence\": [0, 1]\x7d" ∧
    ¬ (errorShape (handlerBodyJson (PyEvent.dict [("n", PyVal.bool true)])) ∨
      successShape (handlerBodyJson (PyEvent.dict [("n", PyVal.bool true)]))) := by
  constructor
  · rfl
  · have hb : handlerBodyJson (PyEvent.dict [("n", PyVal.bool true)])
        = [("n", JVal.atom (JAtom.jbool true)),
           ("sequence", JVal.arr [JAtom.jint 0, JAtom.jint 1])] := rfl
    rw [hb]
    rintro (⟨msg, hmsg⟩ | ⟨k, l, hkl⟩)
    · simp at hmsg
    · simp at hkl

/-- C7: validate_input is total and never raises: the exception-aware
rendering of its body returns ok on every input, agreeing with the
pure function, so failure is signalled only through the returned
pair. -/
theorem C7_validate_input_total (v : PyVal) :
    validate_input_exc v = Except.ok (validate_input v) := by
  unfold validate_input_exc validate_input
  split_ifs <;> rfl

/-- C8: for every input, the message returned by validate_input is the
empty string exactly when the validity flag is true. -/
theorem C8_message_empty_iff_valid (v : PyVal) :
    (validate_input v).2 = "" ↔ (validate_input v).1 = true := by
  unfold validate_input
  split_ifs <;> decide

/-- C9: the response is a function of the event alone: two invocations
with the same event and any two runtime contexts return identical
responses, in particular byte-identical body strings. -/
theorem C9_deterministic (event : PyEvent) (c c' : LambdaContext) :
    lambda_handler event c = lambda_handler event c' ∧
    (lambda_handler event c).body = (lambda_handler event c').body :=
  ⟨rfl, rfl⟩

/-- C10: a negative argument skips both seed branches and the loop
range is empty, so generate_fibonacci returns the two-element seed
without failing. -/
theorem C10_negative_input (n : Int) (h : n < 0) :
    generate_fibonacci n = [0, 1] := by
  unfold generate_fibonacci
  rw [if_neg (show ¬ n = 0 by omega), if_neg (show ¬ n = 1 by omega)]
  have hr : pyRange 2 (n + 1) = [] := by
    unfold pyRange
    have ht : (n + 1 - 2).toNat = 0 := by omega
    rw [ht]
    rfl
  rw [hr]
  rfl

/-- Witness for C10, at n = -5. -/
theorem C10_negative_input_witness : generate_fibonacci (-5) = [0, 1] :=
  C10_negative_input (-5) (by decide)
